import Mathlib

/-! A verification development for the "kazna_2" treasury backend.

The Python sources are shallowly embedded: pure logic becomes Lean functions,
mutation becomes explicit state passing, raised exceptions become `Except`
errors, and `datetime` timestamps become natural numbers (only presence and
identity of a timestamp matter to the properties below).  Each definition is
written against one concrete place in the repository, named in its doc
comment. -/

namespace Practice001

/-- The `PaymentItemVat` enumeration from `practice/001/payment_item.py`:
the three admissible VAT percentages. -/
inductive PaymentItemVat where
  | five
  | ten
  | twenty
deriving DecidableEq, Repr

/-- The underlying integer of a `PaymentItemVat` member (`.value` in Python). -/
def PaymentItemVat.value : PaymentItemVat → ℤ
  | .five => 5
  | .ten => 10
  | .twenty => 20

/-- The VAT-bearing `PaymentItem` from `practice/001/payment_item.py`.
`payment_positions` plays no role in the arithmetic and is omitted;
`price` and `quantity` are Python ints, embedded as ℤ. -/
structure PaymentItem where
  price : ℤ
  quantity : ℤ
  vat : PaymentItemVat
deriving DecidableEq, Repr

/-- The `price` property setter: raises `ValueError` on a negative value,
otherwise stores it. -/
def setPrice (item : PaymentItem) (value : ℤ) : Except String PaymentItem :=
  if value < 0 then .error "Цена не может быть отрицательной"
  else .ok { item with price := value }

/-- The `quantity` property setter: raises `ValueError` on a negative value,
otherwise stores it. -/
def setQuantity (item : PaymentItem) (value : ℤ) : Except String PaymentItem :=
  if value < 0 then .error "Кол-во не может быть отрицательным"
  else .ok { item with quantity := value }

/-- The constructor `PaymentItem.__init__`: assigns `price` and `quantity` through their
validating setters. -/
def mkPaymentItem (price quantity : ℤ) (vat : PaymentItemVat) : Except String PaymentItem :=
  if price < 0 then .error "Цена не может быть отрицательной"
  else if quantity < 0 then .error "Кол-во не может быть отрицательным"
  else .ok { price := price, quantity := quantity, vat := vat }

/-- The `total_sum` property: `price * quantity` (int arithmetic in Python). -/
def PaymentItem.total_sum (i : PaymentItem) : ℤ := i.price * i.quantity

/-- The `sum_vat` property: `(total_sum * vat.value) / (100 + vat.value)`.
Python's `/` is true division; it is embedded as exact rational division
(the claimed inputs are exactly representable, where the two agree). -/
def PaymentItem.sum_vat (i : PaymentItem) : ℚ :=
  (i.total_sum * i.vat.value : ℤ) / ((100 + i.vat.value : ℤ) : ℚ)

/-- The `sum_without_vat` property: `total_sum - sum_vat`. -/
def PaymentItem.sum_without_vat (i : PaymentItem) : ℚ :=
  (i.total_sum : ℚ) - i.sum_vat

end Practice001

namespace SoftDelete

/-- The pair of fields managed by `SoftDeleteMixin`
(`src/generic/domain/mixins/soft_delete.py`).  `deleted_at` is a
`datetime | None`; a datetime is always truthy in Python and `None` is falsy,
so truthiness of `deleted_at` is exactly `Option.isSome`. -/
structure State where
  is_deleted : Bool
  deleted_at : Option ℕ
deriving DecidableEq, Repr

/-- The constructor `SoftDeleteMixin.__init__`: cross-validates the argument pair before
storing it (`if is_deleted and not deleted_at: deleted_at = now()` /
`elif not is_deleted and deleted_at: is_deleted = True`).  The current clock
is passed explicitly as `now`. -/
def init (now : ℕ) (is_deleted : Bool) (deleted_at : Option ℕ) : State :=
  let d := if is_deleted && deleted_at.isNone then some now else deleted_at
  let i := if !is_deleted && d.isSome then true else is_deleted
  { is_deleted := i, deleted_at := d }

mutual

/-- The two property setters of `SoftDeleteMixin` call each other; on every
input the nested call takes the fall-through branch, so the recursion depth
is at most 2 and the pair is defined with explicit fuel. -/
def setIsDeletedFuel : ℕ → ℕ → State → Bool → State
  | 0, _, s, value => { s with is_deleted := value }
  | fuel + 1, now, s, value =>
    let s1 : State := { s with is_deleted := value }
    if value && s1.deleted_at.isNone then setDeletedAtFuel fuel now s1 (some now)
    else if !value && s1.deleted_at.isSome then setDeletedAtFuel fuel now s1 none
    else s1

/-- The `deleted_at` property setter (fuelled), mirroring
`SoftDeleteMixin.deleted_at.setter`. -/
def setDeletedAtFuel : ℕ → ℕ → State → Option ℕ → State
  | 0, _, s, value => { s with deleted_at := value }
  | fuel + 1, now, s, value =>
    let s1 : State := { s with deleted_at := value }
    if value.isSome && !s1.is_deleted then setIsDeletedFuel fuel now s1 true
    else if value.isNone && s1.is_deleted then setIsDeletedFuel fuel now s1 false
    else s1

end

/-- The `is_deleted` property setter as invoked from outside the mixin. -/
def State.setIsDeleted (s : State) (now : ℕ) (value : Bool) : State :=
  setIsDeletedFuel 2 now s value

/-- The `deleted_at` property setter as invoked from outside the mixin. -/
def State.setDeletedAt (s : State) (now : ℕ) (value : Option ℕ) : State :=
  setDeletedAtFuel 2 now s value

/-- The soft-delete cross-validation invariant: the flag is set exactly when
the timestamp is present. -/
def State.inv (s : State) : Prop := s.is_deleted = s.deleted_at.isSome

instance (s : State) : Decidable s.inv := by
  unfold State.inv; infer_instance

end SoftDelete

namespace LogAttrs

/-- An attribute value as seen by `LogChangedAttrsMixin.__setattr__`
(`src/generic/domain/mixins/log_changed_attrs.py`): either a real value or
the `UNEVALUATED` sentinel recorded when `getattr` on the old value raised
(the attribute did not exist yet).  `UNEVALUATED` itself is imported from
`generic.domain.values`, a module absent from the tree; it is a unique
sentinel object, unequal to every ordinary value. -/
inductive Value (V : Type) where
  | unevaluated
  | val (v : V)
deriving DecidableEq, Repr

/-- The `LogChangedAttrs` dataclass: one change record
(`field_name` is kept as the key of the association list holding it). -/
structure LogChangedAttrs (V : Type) where
  old_value : Value V
  new_value : Value V
deriving DecidableEq, Repr

/-- The in-memory state `LogChangedAttrsMixin` manages: the plain attribute
dictionary of the object and the `_logs_changed_attrs_by_field` dictionary.
Python dicts keep insertion order; both are association lists with unique
keys, updated in place and appended at the end. -/
structure Entity (V : Type) where
  attrs : List (String × V)
  logs : List (String × LogChangedAttrs V)
deriving DecidableEq, Repr

/-- Ordered-dict lookup. -/
def lookup {α : Type} : List (String × α) → String → Option α
  | [], _ => none
  | (k, v) :: rest, key => if k = key then some v else lookup rest key

/-- Ordered-dict write: update in place when the key exists, append otherwise
(Python `d[k] = v` semantics). -/
def setKey {α : Type} : List (String × α) → String → α → List (String × α)
  | [], key, v => [(key, v)]
  | (k, w) :: rest, key, v =>
    if k = key then (key, v) :: rest else (k, w) :: setKey rest key v

/-- The method `LogChangedAttrsMixin._make_log_changed_attrs`: if a record for the field
already exists only its `new_value` is replaced (`old_value` is never
overwritten); otherwise a record is created, but only when the new value
differs from the old one. -/
def makeLog {V : Type} [DecidableEq V] (e : Entity V) (name : String)
    (old_value new_value : Value V) : Entity V :=
  match lookup e.logs name with
  | some data => { e with logs := setKey e.logs name { data with new_value := new_value } }
  | none =>
    if new_value ≠ old_value then
      { e with logs := e.logs ++ [(name, ⟨old_value, new_value⟩)] }
    else e

/-- The interception `LogChangedAttrsMixin.__setattr__` after construction (the log dictionary
is installed): reads the old value (`UNEVALUATED` when absent), stores the
new one, re-reads it and records the change. -/
def setattr {V : Type} [DecidableEq V] (e : Entity V) (name : String) (value : V) : Entity V :=
  let old := match lookup e.attrs name with
    | some v => Value.val v
    | none => Value.unevaluated
  let e1 : Entity V := { e with attrs := setKey e.attrs name value }
  makeLog e1 name old (match lookup e1.attrs name with
    | some v => Value.val v
    | none => Value.unevaluated)

/-- Construction of an entity built on the mixin (e.g. `Claim.__init__`):
every assignment made inside `__init__` happens before
`_logs_changed_attrs_by_field` is installed (the mixin's `__init__` runs
last in the MRO and installs it after `super().__init__()`), so the guard
`hasattr(self, "_logs_changed_attrs_by_field")` fails and the values are
stored without logging; the log dictionary then starts empty. -/
def construct {V : Type} (init : List (String × V)) : Entity V :=
  { attrs := init.foldl (fun a kv => setKey a kv.1 kv.2) [], logs := [] }

/-- Strips one leading underscore from a private attribute name
(`field.removeprefix` with an underscore argument, in `changed_values`). -/
def dropLeadingUnderscore (s : String) : String :=
  if s.startsWith "_" then s.drop 1 else s

/-- The `changed_values` property: for every logged field, its public name
paired with the attribute's current value. -/
def Entity.changed_values {V : Type} (e : Entity V) : List (String × Option V) :=
  e.logs.map fun kv => (dropLeadingUnderscore kv.1, lookup e.attrs kv.1)

/-- The method `SaRepository._get_data_for_update`
(`src/generic/database/repositories/sa_repositories/base_repository.py`):
maps each changed entity field to an ORM column — through the mapper's
override map when one exists, else directly when the model has the column.
Enum unwrapping and FK-to-id projection transform only the value written,
never whether a column appears, and are elided. -/
def getDataForUpdate {V : Type} (extraOrm : String → Option String)
    (modelCols : List String) (e : Entity V) : List (String × Option V) :=
  e.changed_values.foldl
    (fun data kv =>
      match extraOrm kv.1 with
      | some ormAttr => setKey data ormAttr kv.2
      | none => if modelCols.contains kv.1 then setKey data kv.1 kv.2 else data)
    []

/-- The guard in `SaRepository.update`: `if data := self._get_data_for_update(obj):`
— an UPDATE statement is issued only when the dict is non-empty. -/
def updateIssuesStatement {V : Type} (extraOrm : String → Option String)
    (modelCols : List String) (e : Entity V) : Bool :=
  !(getDataForUpdate extraOrm modelCols e).isEmpty

end LogAttrs

namespace EntityEq

/-- A Python class modeled by its linearized ancestry: the class's own name
first, followed by the names of its ancestors (the entity hierarchy in the
repository is a single-inheritance chain of mixins, so a subclass's chain
extends its base's chain on the left). -/
structure PyEntity where
  cls : List String
  id : ℕ
deriving DecidableEq, Repr

/-- Python `isinstance(obj, c)`: the class `c` is `obj`'s class or one of its
ancestors, i.e. `c`'s chain is a suffix of `obj`'s chain. -/
def instanceOf (objCls c : List String) : Bool := c.isSuffixOf objCls

/-- The method `BaseEntity.__eq__` (`src/generic/domain/entity.py`):
`isinstance(other, self.__class__) and self.id == other.id`. -/
def eqMethod (a b : PyEntity) : Bool := instanceOf b.cls a.cls && a.id == b.id

/-- The method `BaseEntity.__hash__`: the hash key string — the class name
concatenated with the id string (the hash of two entities collides
exactly when these strings do). -/
def hashKey (a : PyEntity) : String := a.cls.headD "" ++ toString a.id

/-- Boolean proper-subclass test on ancestry chains: `c` strictly extends
`d`. -/
def properSubclass (c d : List String) : Bool := d.isSuffixOf c && decide (c ≠ d)

/-- Python's `==` on two entities (CPython `do_richcompare`): when the right
operand's class is a proper subclass of the left's, the right operand's
(reflected) `__eq__` is consulted first; `BaseEntity.__eq__` always returns
a `bool` — never `NotImplemented` — so whichever side is consulted first
gives the final answer. -/
def pyEq (a b : PyEntity) : Bool :=
  if properSubclass b.cls a.cls then eqMethod b a else eqMethod a b

end EntityEq

namespace ClaimCtx

/-- The domain `PaymentItem` entity
(`src/core/claims/domain/aggregates/claim/entities/payment_item/entity.py`):
identity plus creation/update timestamps.  Identifiers (UUIDs) are embedded
as naturals, timestamps as `Option ℕ`. -/
structure PaymentItem where
  id : ℕ
  created_at : Option ℕ
  updated_at : Option ℕ
deriving DecidableEq, Repr

/-- The domain `Claim` aggregate root
(`src/core/claims/domain/aggregates/claim/aggregate.py`). -/
structure Claim where
  id : ℕ
  system_number : String
  payment_items : List PaymentItem
  created_at : Option ℕ
  updated_at : Option ℕ
  is_deleted : Bool
  deleted_at : Option ℕ
deriving DecidableEq, Repr

/-- The `SaPaymentItem` ORM row
(`src/adapters/outbound/database/models/claims/payment_items.py`). -/
structure SaPaymentItem where
  id : ℕ
  created_at : Option ℕ
  updated_at : Option ℕ
deriving DecidableEq, Repr

/-- The `SaClaim` ORM row with its loaded `payment_items` relation
(`src/adapters/outbound/database/models/claims/claims.py`). -/
structure SaClaim where
  id : ℕ
  system_number : String
  payment_items : List SaPaymentItem
  created_at : Option ℕ
  updated_at : Option ℕ
  is_deleted : Bool
  deleted_at : Option ℕ
deriving DecidableEq, Repr

/-- The mapper direction `ClaimMapper.orm_to_entity`
(`src/adapters/outbound/database/repositories/claims/mapper.py`, lines 11-28). -/
def orm_to_entity (orm : SaClaim) : Claim :=
  { id := orm.id
    system_number := orm.system_number
    payment_items := orm.payment_items.map fun p =>
      { id := p.id, created_at := p.created_at, updated_at := p.updated_at }
    created_at := orm.created_at
    updated_at := orm.updated_at
    is_deleted := orm.is_deleted
    deleted_at := orm.deleted_at }

/-- The mapper direction `ClaimMapper.entity_to_orm`
(`src/adapters/outbound/database/repositories/claims/mapper.py`, lines 30-47).
The payment-item comprehension reads `id=obj.id` — the claim's id — for every
produced `SaPaymentItem` row. -/
def entity_to_orm (obj : Claim) : SaClaim :=
  { id := obj.id
    system_number := obj.system_number
    payment_items := obj.payment_items.map fun p =>
      { id := obj.id, created_at := p.created_at, updated_at := p.updated_at }
    created_at := obj.created_at
    updated_at := obj.updated_at
    is_deleted := obj.is_deleted
    deleted_at := obj.deleted_at }

/-- A concrete claim whose single payment item has an id different from the
claim's own id. -/
def claimEx : Claim :=
  { id := 1
    system_number := "SN-1"
    payment_items := [{ id := 2, created_at := some 10, updated_at := some 11 }]
    created_at := some 5
    updated_at := some 6
    is_deleted := false
    deleted_at := none }

end ClaimCtx

/-- Errors a Python execution can surface in the embedded handlers:
a domain not-found error, an `AttributeError` from resolving a missing
attribute on a class or instance (carrying the owner and attribute names),
or a SQLAlchemy `ArgumentError` from constructing a statement over a class
that is not a mapped entity (carrying the offending class name). -/
inductive PyError where
  | claimNotFoundError (id : ℕ)
  | attributeError (owner attr : String)
  | argumentError (cls : String)
deriving DecidableEq, Repr

namespace GetQuery

/-- The attribute names available on the `ClaimDetailDTO` class
(`src/query/claims/handlers/get.py`): its declared fields plus the public
classmethod surface pydantic's `BaseModel` gives every model.  The validator
classmethod is named `model_validate`; no attribute `moel_validate` exists. -/
def claimDetailDTOClassAttrs : List String :=
  ["id", "system_number", "created_at", "updated_at", "is_deleted", "deleted_at",
   "payment_items", "model_validate", "model_validate_json", "model_construct",
   "model_dump", "model_dump_json", "model_copy", "model_fields", "model_config"]

/-- What `ClaimDetailDTO.model_validate(orm)` would build from a joined row:
the detail projection of the claim row and its payment-item rows. -/
def dtoFromRow (orm : ClaimCtx.SaClaim) : ClaimCtx.Claim := ClaimCtx.orm_to_entity orm

/-- The class names SQLAlchemy can interpret as a selectable entity in this
bounded context: the mapped ORM models (`SaClaim`, `SaPaymentItem`).  The
domain aggregate `Claim` (`core/claims/domain/aggregates/claim/aggregate.py`)
is a plain Python class, not a mapped one. -/
def mappedClassNames : List String := ["SaClaim", "SaPaymentItem"]

/-- Statement construction `select(cls)` (SQLAlchemy): a class that is not a
mapped entity is not a column expression or FROM clause, so construction
raises `ArgumentError` immediately, before the statement could ever run. -/
def selectEntity (clsName : String) : Except PyError String :=
  if mappedClassNames.contains clsName then .ok clsName
  else .error (.argumentError clsName)

/-- The query `Handler.execute` from `src/query/claims/handlers/get.py`
(lines 36-42).  Line 37 builds `select(Claim)` — over the imported *domain
aggregate*, not `SaClaim` — so statement construction raises
`ArgumentError` on every call.  The rest of the body is embedded in source
order but is unreachable: were the select over a mapped class, its execution
would be the by-id row lookup (items eager-loaded), `None` would raise
`ClaimNotFoundError(id=claim_id)`, and line 42 would resolve the attribute
`moel_validate` on `ClaimDetailDTO` before calling it. -/
def handlerExecute (store : List ClaimCtx.SaClaim) (claim_id : ℕ) :
    Except PyError ClaimCtx.Claim :=
  match selectEntity "Claim" with
  | .error e => .error e
  | .ok _ =>
    match store.find? (fun r => r.id == claim_id) with
    | none => .error (.claimNotFoundError claim_id)
    | some orm =>
      if claimDetailDTOClassAttrs.contains "moel_validate" then .ok (dtoFromRow orm)
      else .error (.attributeError "ClaimDetailDTO" "moel_validate")

/-- A store holding exactly one claim row (id 1) with one payment-item row. -/
def storeEx : List ClaimCtx.SaClaim :=
  [{ id := 1
     system_number := "SN-1"
     payment_items := [{ id := 2, created_at := some 10, updated_at := some 11 }]
     created_at := some 5
     updated_at := some 6
     is_deleted := false
     deleted_at := none }]

end GetQuery

namespace UpdateCmd

/-- The `UpdateData` payload model of the update command
(`src/core/claims/application/commands/claim/update.py`). -/
structure UpdateData where
  system_number : String
deriving DecidableEq, Repr

/-- The `Payload` of the update command. -/
structure Payload where
  claim_id : ℕ
  update_data : UpdateData
deriving DecidableEq, Repr

/-- The attribute names defined across `Claim`'s method resolution order
(`aggregate.py`, `soft_delete.py`, `created_updated.py`, `entity.py`,
`log_changed_attrs.py`): data attributes, properties and methods.  No class
in the chain defines an attribute named `update`; the closest is the mixin's
`update_attrs`. -/
def claimClassAttrs : List String :=
  ["id", "system_number", "payment_items", "created_at", "updated_at",
   "is_deleted", "deleted_at", "entity_type", "validate",
   "logs_changed_attrs_by_field", "changed_values", "update_attrs"]

/-- The attribute names present on a `UnitOfWork` instance inside the
`async with` scope: the instance attributes set by `BaseUnitOfWork.__init__`
(`generic/units_of_work/base.py`) plus the class's methods and properties.
`UnitOfWork._init_repositories` in
`core/shared_kernel/units_of_work/postgres.py` is an empty stub (its body is
only a docstring) and nothing else ever assigns a repository attribute, so
no attribute named `claim_repository` exists. -/
def unitOfWorkInstanceAttrs : List String :=
  ["session_factory", "_session", "_is_outside_session",
   "_bounded_events_processor", "_repositories_attrs",
   "unique_integrity_error_message_map", "session", "bounded_events_processor",
   "commit", "rollback"]

/-- The command `Command.execute` from `src/core/claims/application/commands/claim/update.py`
(lines 21-27).  Line 23 resolves `claim_repository` on the Unit of Work —
an attribute `UnitOfWork._init_repositories` never assigns — so execution
raises `AttributeError` for every input.  The rest of the trace is embedded
in source order but is unreachable: with a repository wired, `get_by_id`
would raise the claim not-found error on a missing row or map the row to
the entity, line 24 would resolve the (also missing) attribute `update` on
the aggregate, and `upsert` (embedded as replacing the row mapped from the
entity) would stage the aggregate before it is returned. -/
def commandExecute (store : List ClaimCtx.SaClaim) (payload : Payload) :
    Except PyError (ClaimCtx.Claim × List ClaimCtx.SaClaim) :=
  if unitOfWorkInstanceAttrs.contains "claim_repository" then
    match store.find? (fun r => r.id == payload.claim_id) with
    | none => .error (.claimNotFoundError payload.claim_id)
    | some row =>
      let claim := ClaimCtx.orm_to_entity row
      if claimClassAttrs.contains "update" then
        let claim1 : ClaimCtx.Claim := { claim with system_number := payload.update_data.system_number }
        let sa := ClaimCtx.entity_to_orm claim1
        .ok (claim1, store.map fun r => if r.id == sa.id then sa else r)
      else .error (.attributeError "Claim" "update")
  else .error (.attributeError "UnitOfWork" "claim_repository")

end UpdateCmd

namespace Config

/-- The process environment, as pydantic-settings reads it: a mapping from
variable names to string values. -/
def Env : Type := List (String × String)

/-- Environment lookup. -/
def envGet (env : Env) (key : String) : Option String :=
  match env.find? (fun kv => kv.1 = key) with
  | some kv => some kv.2
  | none => none

/-- The settings class `DatabaseSettings` from `src/adapters/config/settings.py` (lines 12-21):
every field carries a default (`"dev"` for name/username/password,
`"localhost"` for host, `5432` for port, `False` for echo), each overridable
under the `database_` prefix. -/
structure DatabaseSettings where
  name : String
  username : String
  password : String
  host : String
  port : ℕ
  echo : Bool
deriving DecidableEq, Repr

/-- pydantic's int coercion for the `port` field (a non-numeric override is a
validation error). -/
def parsePort (s : String) : Except String ℕ :=
  match s.toNat? with
  | some n => .ok n
  | none => .error "1 validation error for DatabaseSettings: port"

/-- pydantic's bool coercion for the `echo` field. -/
def parseEcho (s : String) : Except String Bool :=
  if ["true", "True", "1", "yes", "on"].contains s then .ok true
  else if ["false", "False", "0", "no", "off"].contains s then .ok false
  else .error "1 validation error for DatabaseSettings: echo"

/-- Loading `DatabaseSettings` from the environment: defaults for absent
variables, coercion for present ones. -/
def loadDatabaseSettings (env : Env) : Except String DatabaseSettings := do
  let port ← match envGet env "database_port" with
    | some s => parsePort s
    | none => .ok 5432
  let echo ← match envGet env "database_echo" with
    | some s => parseEcho s
    | none => .ok false
  .ok { name := (envGet env "database_name").getD "dev"
        username := (envGet env "database_username").getD "dev"
        password := (envGet env "database_password").getD "dev"
        host := (envGet env "database_host").getD "localhost"
        port := port
        echo := echo }

/-- The settings class `RedisSettings` from `src/adapters/config/settings.py` (lines 38-42):
the single field `url` has no default. -/
structure RedisSettings where
  url : String
deriving DecidableEq, Repr

/-- Loading `RedisSettings`: the `redis_url` variable is required, so its
absence is a validation error (pydantic's `RedisDsn` format check on a
present value is elided — only presence decides the property below). -/
def loadRedisSettings (env : Env) : Except String RedisSettings :=
  match envGet env "redis_url" with
  | some u => .ok { url := u }
  | none => .error "1 validation error for RedisSettings: url Field required"

/-- The application `Settings` object (`settings.py`, lines 45-48): it holds
only the `db` field; the `redis: RedisSettings` field is commented out in
the source, so `RedisSettings` is never constructed during settings load. -/
structure Settings where
  db : DatabaseSettings
deriving DecidableEq, Repr

/-- Constructing `Settings()` at import time (`settings.py`, line 63). -/
def loadSettings (env : Env) : Except String Settings :=
  match loadDatabaseSettings env with
  | .ok db => .ok { db := db }
  | .error e => .error e

end Config

namespace UoW

/-- Python `str.strip()` whitespace set. -/
def isPySpace (c : Char) : Bool :=
  c = ' ' || c = '\t' || c = '\n' || c = '\r' || c = '\x0b' || c = '\x0c'

/-- Python `str.strip()`: drop leading and trailing whitespace. -/
def pyStrip (s : List Char) : List Char :=
  ((s.dropWhile isPySpace).reverse.dropWhile isPySpace).reverse

/-- Index of the last occurrence of `c` in `l`. -/
def lastIdxOf : List Char → Char → Option ℕ
  | [], _ => none
  | x :: xs, c =>
    match lastIdxOf xs c with
    | some i => some (i + 1)
    | none => if x = c then some 0 else none

/-- The helper `funcy.re_find` for the three patterns used by
`BaseUnitOfWork._transform_db_error_to_domain`, all of the shape
`lit(.*)close` (or `lit(.*close)` when `incl` is true and the closing
character belongs to the capture group).  `re.search` semantics: the match
starts at the leftmost position where the literal matches and a closing
character follows on the same line (`.` does not match a newline); `.*` is
greedy, so the capture extends to the last occurrence of `close` on that
line.  Returns the capture group, `none` when there is no match. -/
def reFindGreedy (lit : List Char) (close : Char) (incl : Bool) : List Char → Option (List Char)
  | [] => none
  | s@(_ :: rest) =>
    (if lit.isPrefixOf s then
      let tail := s.drop lit.length
      let line := tail.takeWhile (fun c => c ≠ '\n')
      match lastIdxOf line close with
      | some i => some (line.take (if incl then i + 1 else i))
      | none => none
    else none) <|> reFindGreedy lit close incl rest

/-- The `DETAIL:` extraction: `re_find(r"DETAIL: (.*\.)", error_msg)` —
the capture group ends with (and includes) the last period on the line. -/
def findDetail (errorMsg : List Char) : Option (List Char) :=
  reFindGreedy "DETAIL: ".toList '.' true errorMsg

/-- The violated-constraint extraction:
`re_find('duplicate key value violates unique constraint "(.*)"', error_msg)`. -/
def findDuplicateKey (errorMsg : List Char) : Option (List Char) :=
  reFindGreedy "duplicate key value violates unique constraint \"".toList '"' false errorMsg

/-- The varchar-limit extraction:
`re_find(r"value too long for type character varying\((.*)\)", error_msg)`. -/
def findVarcharLimit (errorMsg : List Char) : Option (List Char) :=
  reFindGreedy "value too long for type character varying(".toList ')' false errorMsg

/-- A `DomainError` as produced by the error translation: only the
user-facing message is populated there (id, entity, field errors and
tech details keep their defaults). -/
structure DomainError where
  message : String
deriving DecidableEq, Repr

/-- The constant `asyncpg.UniqueViolationError.sqlstate` (PostgreSQL `unique_violation`). -/
def uniqueViolationSqlstate : String := "23505"

/-- The constant `asyncpg.StringDataRightTruncationError.sqlstate`
(PostgreSQL `string_data_right_truncation`). -/
def truncationSqlstate : String := "22001"

/-- What the translation reads off the caught `DBAPIError`:
`str(exc.args[0])` and `exc.orig.sqlstate`. -/
structure DbError where
  errorMsg : String
  sqlstate : String
deriving DecidableEq, Repr

/-- Python string interpolation of an optional capture: `None` renders as
the literal `"None"`. -/
def pyShowOpt : Option (List Char) → String
  | some l => String.mk l
  | none => "None"

/-- The synthesized uniqueness message
the f-string interpolating the captured detail and the duplicate key. -/
def mkUniqueMsg (detail : List Char) (duplicateKey : Option (List Char)) : String :=
  "Значение должно быть уникальным: " ++ String.mk detail ++ " (key=" ++ pyShowOpt duplicateKey ++ ")"

/-- The truncation message
the f-string interpolating the captured limit, where the or-guard over the
capture substitutes the three question marks when it is absent or empty. -/
def mkTruncationMsg (value : Option (List Char)) : String :=
  "Слишком длинное значение (ограничение: " ++
    (match value with
     | some v => if v = [] then "???" else String.mk v
     | none => "???") ++ " символов)"

/-- The translation `BaseUnitOfWork._transform_db_error_to_domain`
(`src/generic/units_of_work/base.py`, lines 123-167), parameterized by the
per-context `unique_integrity_error_message_map`.  `detail` is the captured
`DETAIL:` text or, when absent, the raw message, stripped.  The uniqueness
branch walks `if description := map.get(duplicate_key)` — a missing key, a
key of `None`, and an empty-string entry all fail that truthiness test and
fall through to the synthesized message. -/
def transformDbErrorToDomain (uniqueMap : List (String × String)) (exc : DbError) : DomainError :=
  let msgChars := exc.errorMsg.toList
  let detail := pyStrip ((findDetail msgChars).getD msgChars)
  if exc.sqlstate = uniqueViolationSqlstate then
    let duplicateKey := findDuplicateKey msgChars
    let description : Option String :=
      match duplicateKey with
      | some k => LogAttrs.lookup uniqueMap (String.mk k)
      | none => none
    match description with
    | some d => if d ≠ "" then { message := d } else { message := mkUniqueMsg detail duplicateKey }
    | none => { message := mkUniqueMsg detail duplicateKey }
  else if exc.sqlstate = truncationSqlstate then
    { message := mkTruncationMsg (findVarcharLimit msgChars) }
  else
    { message := String.mk detail }

end UoW

namespace LogAttrs

theorem lookup_setKey_self {α : Type} (l : List (String × α)) (k : String) (v : α) :
    lookup (setKey l k v) k = some v := by
  induction l with
  | nil => simp [setKey, lookup]
  | cons h t ih =>
    by_cases hk : h.1 = k
    · simp [setKey, hk, lookup]
    · simp [setKey, hk, lookup, ih]

theorem lookup_append_of_none {α : Type} (l : List (String × α)) (k : String) (v : α)
    (h : lookup l k = none) : lookup (l ++ [(k, v)]) k = some v := by
  induction l with
  | nil => simp [lookup]
  | cons hd t ih =>
    by_cases hk : hd.1 = k
    · simp [lookup, hk] at h
    · simp only [lookup, hk, if_neg hk, List.cons_append] at h ⊢
      exact ih h

theorem filter_eq_nil_of_lookup_none {α : Type} (l : List (String × α)) (k : String)
    (h : lookup l k = none) : l.filter (fun kv => decide (kv.1 = k)) = [] := by
  induction l with
  | nil => rfl
  | cons hd t ih =>
    by_cases hk : hd.1 = k
    · simp [lookup, hk] at h
    · simp only [lookup, if_neg hk] at h
      simp [List.filter, hk, ih h]

theorem setKey_append_of_none {α : Type} (l : List (String × α)) (k : String) (x y : α)
    (h : lookup l k = none) : setKey (l ++ [(k, x)]) k y = l ++ [(k, y)] := by
  induction l with
  | nil => simp [setKey]
  | cons hd t ih =>
    by_cases hk : hd.1 = k
    · simp [lookup, hk] at h
    · simp only [lookup, if_neg hk] at h
      simp [setKey, hk, ih h]

end LogAttrs

/-- Claim C5: the soft-delete cross-validation invariant
(`is_deleted` = true exactly when `deleted_at` is set) is established by
construction and re-established by every setter; constructing or mutating
with `is_deleted=true` and no `deleted_at` stamps the current time; setting
`deleted_at` to a value on a live entity flips `is_deleted` to true;
clearing `deleted_at` on a deleted entity flips it to false; setting
`is_deleted` to false clears `deleted_at`. -/
theorem claim_c5_soft_delete_cross_validation :
    (∀ now i d, (SoftDelete.init now i d).inv) ∧
    (∀ now, SoftDelete.init now true none = ⟨true, some now⟩) ∧
    (∀ now (s : SoftDelete.State), s.deleted_at = none →
      (s.setIsDeleted now true).deleted_at = some now) ∧
    (∀ now (s : SoftDelete.State) v, s.is_deleted = false →
      (s.setDeletedAt now (some v)).is_deleted = true) ∧
    (∀ now (s : SoftDelete.State), s.is_deleted = true →
      (s.setDeletedAt now none).is_deleted = false) ∧
    (∀ now (s : SoftDelete.State), (s.setIsDeleted now false).deleted_at = none) ∧
    (∀ now (s : SoftDelete.State) v d,
      (s.setIsDeleted now v).inv ∧ (s.setDeletedAt now d).inv) := by
  refine ⟨?_, ?_, ?_, ?_, ?_, ?_, ?_⟩
  · intro now i d
    cases i <;> cases d <;> simp [SoftDelete.init, SoftDelete.State.inv]
  · intro now
    rfl
  · intro now s h
    obtain ⟨i, d⟩ := s
    cases d with
    | none =>
      cases i <;> simp [SoftDelete.State.setIsDeleted, SoftDelete.setIsDeletedFuel,
        SoftDelete.setDeletedAtFuel]
    | some t => simp at h
  · intro now s v h
    obtain ⟨i, d⟩ := s
    simp only at h
    subst h
    cases d <;> simp [SoftDelete.State.setDeletedAt, SoftDelete.setDeletedAtFuel,
      SoftDelete.setIsDeletedFuel]
  · intro now s h
    obtain ⟨i, d⟩ := s
    simp only at h
    subst h
    cases d <;> simp [SoftDelete.State.setDeletedAt, SoftDelete.setDeletedAtFuel,
      SoftDelete.setIsDeletedFuel]
  · intro now s
    obtain ⟨i, d⟩ := s
    cases d <;> simp [SoftDelete.State.setIsDeleted, SoftDelete.setIsDeletedFuel,
      SoftDelete.setDeletedAtFuel]
  · intro now s v d
    obtain ⟨i, dd⟩ := s
    constructor
    · cases v <;> cases dd <;> simp [SoftDelete.State.setIsDeleted, SoftDelete.setIsDeletedFuel,
        SoftDelete.setDeletedAtFuel, SoftDelete.State.inv]
    · cases d <;> cases i <;> simp [SoftDelete.State.setDeletedAt, SoftDelete.setDeletedAtFuel,
        SoftDelete.setIsDeletedFuel, SoftDelete.State.inv]

/-- Claim C5 witness: a concrete run of the setters through the theorem. -/
theorem claim_c5_soft_delete_witness :
    (SoftDelete.State.mk false none).is_deleted = false ∧
    ((SoftDelete.State.mk false none).setDeletedAt 42 (some 7)).is_deleted = true ∧
    ((SoftDelete.State.mk true (some 7)).setDeletedAt 42 none).is_deleted = false ∧
    (SoftDelete.init 42 true none).inv :=
  ⟨rfl,
   claim_c5_soft_delete_cross_validation.2.2.2.1 42 ⟨false, none⟩ 7 rfl,
   claim_c5_soft_delete_cross_validation.2.2.2.2.1 42 ⟨true, some 7⟩ rfl,
   claim_c5_soft_delete_cross_validation.1 42 true none⟩

/-- Claim C6: on a change-tracked entity, assigning a field whose
post-construction value is `A` (no change yet logged for it) first to
`B ≠ A` and then to any `C` leaves exactly one change-log entry for that
field, with `old_value = A` and `new_value = C` — the original `old_value`
survives later assignments, including assigning the field back to `A`. -/
theorem claim_c6_change_tracking {V : Type} [DecidableEq V] (e : LogAttrs.Entity V)
    (f : String) (A B C : V)
    (hA : LogAttrs.lookup e.attrs f = some A)
    (hlog : LogAttrs.lookup e.logs f = none)
    (hBA : B ≠ A) :
    LogAttrs.lookup (LogAttrs.setattr (LogAttrs.setattr e f B) f C).logs f
      = some ⟨LogAttrs.Value.val A, LogAttrs.Value.val C⟩ ∧
    ((LogAttrs.setattr (LogAttrs.setattr e f B) f C).logs.filter
      (fun kv => decide (kv.1 = f))).length = 1 := by
  have h1 : LogAttrs.setattr e f B =
      { attrs := LogAttrs.setKey e.attrs f B,
        logs := e.logs ++ [(f, ⟨LogAttrs.Value.val A, LogAttrs.Value.val B⟩)] } := by
    unfold LogAttrs.setattr LogAttrs.makeLog
    simp only [hA, LogAttrs.lookup_setKey_self, hlog]
    have : LogAttrs.Value.val B ≠ LogAttrs.Value.val A := by
      simpa using hBA
    simp [this]
  have h2 : LogAttrs.setattr (LogAttrs.setattr e f B) f C =
      { attrs := LogAttrs.setKey (LogAttrs.setKey e.attrs f B) f C,
        logs := e.logs ++ [(f, ⟨LogAttrs.Value.val A, LogAttrs.Value.val C⟩)] } := by
    rw [h1]
    unfold LogAttrs.setattr LogAttrs.makeLog
    simp only [LogAttrs.lookup_setKey_self, LogAttrs.lookup_append_of_none _ _ _ hlog]
    rw [LogAttrs.setKey_append_of_none _ _ _ _ hlog]
  rw [h2]
  constructor
  · exact LogAttrs.lookup_append_of_none _ _ _ hlog
  · rw [List.filter_append, LogAttrs.filter_eq_nil_of_lookup_none _ _ hlog]
    simp

/-- Claim C6 witness: the theorem run on a concrete entity with field `x`,
original value 1, assigned 2 then 3. -/
theorem claim_c6_change_tracking_witness :
    LogAttrs.lookup (LogAttrs.construct [("x", (1 : ℕ))]).attrs "x" = some 1 ∧
    LogAttrs.lookup (LogAttrs.construct [("x", (1 : ℕ))]).logs "x" = none ∧
    (2 : ℕ) ≠ 1 ∧
    LogAttrs.lookup
        (LogAttrs.setattr (LogAttrs.setattr (LogAttrs.construct [("x", (1 : ℕ))]) "x" 2) "x" 3).logs
        "x" = some ⟨LogAttrs.Value.val 1, LogAttrs.Value.val 3⟩ :=
  ⟨by decide, by decide, by decide,
   (claim_c6_change_tracking (LogAttrs.construct [("x", (1 : ℕ))]) "x" 1 2 3
     (by decide) (by decide) (by decide)).1⟩

/-- Claim C10: immediately after constructing an entity built on the
change-tracking mixin, the change log is empty (assignments made during
`__init__` precede installation of the tracking dictionary), so
`changed_values` is empty and `SaRepository.update` on the fresh entity
issues no UPDATE statement. -/
theorem claim_c10_fresh_entity_log_empty {V : Type} (init : List (String × V))
    (extraOrm : String → Option String) (modelCols : List String) :
    (LogAttrs.construct init).logs = [] ∧
    (LogAttrs.construct init).changed_values = [] ∧
    LogAttrs.updateIssuesStatement extraOrm modelCols (LogAttrs.construct init) = false :=
  ⟨rfl, rfl, rfl⟩

theorem EntityEq.pyEq_iff (a b : EntityEq.PyEntity) :
    EntityEq.pyEq a b = true ↔ a.cls = b.cls ∧ a.id = b.id := by
  unfold EntityEq.pyEq EntityEq.properSubclass EntityEq.eqMethod EntityEq.instanceOf
  by_cases hps : (a.cls.isSuffixOf b.cls && decide (b.cls ≠ a.cls)) = true
  · rw [if_pos hps]
    simp only [Bool.and_eq_true, decide_eq_true_eq, List.isSuffixOf_iff_suffix] at hps
    obtain ⟨hsuf, hne⟩ := hps
    simp only [Bool.and_eq_true, beq_iff_eq, List.isSuffixOf_iff_suffix]
    constructor
    · rintro ⟨hsuf2, _⟩
      exact absurd (hsuf2.sublist.antisymm hsuf.sublist) hne
    · rintro ⟨hcls, _⟩
      exact absurd hcls.symm hne
  · rw [if_neg hps]
    simp only [Bool.and_eq_true, decide_eq_true_eq, List.isSuffixOf_iff_suffix, not_and,
      Decidable.not_not] at hps
    simp only [Bool.and_eq_true, beq_iff_eq, List.isSuffixOf_iff_suffix]
    constructor
    · rintro ⟨hsuf, hid⟩
      exact ⟨(hps hsuf).symm, hid⟩
    · rintro ⟨hcls, hid⟩
      exact ⟨by rw [hcls], hid⟩

/-- Claim C8 counterexample: two entities of distinct concrete types that
share a class name and an identity do not compare equal, yet their hash
keys collide — `__hash__` is keyed on the class *name* plus the id string,
not on the concrete type, refuting "two entities of distinct concrete types
never compare equal or collide by that key". -/
theorem claim_c8_entity_eq_counterexample :
    EntityEq.pyEq ⟨["PaymentItem", "BaseEntity"], 7⟩
        ⟨["PaymentItem", "CreatedUpdatedMixin", "BaseEntity"], 7⟩ = false ∧
    (["PaymentItem", "BaseEntity"] : List String)
      ≠ ["PaymentItem", "CreatedUpdatedMixin", "BaseEntity"] ∧
    EntityEq.hashKey ⟨["PaymentItem", "BaseEntity"], 7⟩
      = EntityEq.hashKey ⟨["PaymentItem", "CreatedUpdatedMixin", "BaseEntity"], 7⟩ := by
  decide

/-- Claim C8 amended: equality via the `==` operator is indeed keyed on
(concrete type, identity) and symmetric — when the operand types differ,
CPython consults the proper-subclass operand's reflected `__eq__` first and
the `isinstance` check in `BaseEntity.__eq__` then answers `False` with no
fallback — but hashing is keyed on the class *name* concatenated with the
id string, so two entities of distinct concrete types sharing a class name
and identity do collide by hash key. -/
theorem claim_c8_entity_eq_amended (a b : EntityEq.PyEntity) :
    (EntityEq.pyEq a b = true ↔ a.cls = b.cls ∧ a.id = b.id) ∧
    EntityEq.pyEq a b = EntityEq.pyEq b a ∧
    (a.cls.headD "" = b.cls.headD "" → a.id = b.id →
      EntityEq.hashKey a = EntityEq.hashKey b) := by
  refine ⟨EntityEq.pyEq_iff a b, ?_, ?_⟩
  · by_cases h : a.cls = b.cls ∧ a.id = b.id
    · rw [(EntityEq.pyEq_iff a b).mpr h, (EntityEq.pyEq_iff b a).mpr ⟨h.1.symm, h.2.symm⟩]
    · have ha : EntityEq.pyEq a b = false := by
        cases hx : EntityEq.pyEq a b
        · rfl
        · exact absurd ((EntityEq.pyEq_iff a b).mp hx) h
      have hb : EntityEq.pyEq b a = false := by
        cases hx : EntityEq.pyEq b a
        · rfl
        · obtain ⟨hc, hi⟩ := (EntityEq.pyEq_iff b a).mp hx
          exact absurd ⟨hc.symm, hi.symm⟩ h
      rw [ha, hb]
  · intro h1 h2
    unfold EntityEq.hashKey
    rw [h1, h2]

/-- Claim C8 amended witness: the hash-collision implication applied to two
distinct classes sharing the name `PaymentItem`. -/
theorem claim_c8_entity_eq_amended_witness :
    EntityEq.hashKey ⟨["PaymentItem", "BaseEntity"], 3⟩
      = EntityEq.hashKey ⟨["PaymentItem", "CreatedUpdatedMixin", "BaseEntity"], 3⟩ :=
  (claim_c8_entity_eq_amended ⟨["PaymentItem", "BaseEntity"], 3⟩
    ⟨["PaymentItem", "CreatedUpdatedMixin", "BaseEntity"], 3⟩).2.2 rfl rfl

/-- Claim C9: `ClaimMapper.entity_to_orm` gives every produced
`SaPaymentItem` row the claim's own id (the comprehension reads `obj.id`
instead of the item's id), so payment-item identities are not preserved —
shown both in general and on a concrete claim whose item has a different id. -/
theorem claim_c9_mapper_item_ids (obj : ClaimCtx.Claim) :
    ((ClaimCtx.entity_to_orm obj).payment_items.map ClaimCtx.SaPaymentItem.id)
      = obj.payment_items.map (fun _ => obj.id) ∧
    ((ClaimCtx.entity_to_orm ClaimCtx.claimEx).payment_items.map ClaimCtx.SaPaymentItem.id
      ≠ ClaimCtx.claimEx.payment_items.map ClaimCtx.PaymentItem.id) := by
  constructor
  · simp only [ClaimCtx.entity_to_orm, List.map_map]
    induction obj.payment_items with
    | nil => rfl
    | cons h t ih => simpa using ih
  · decide





/-- Claim C7: for the VAT-bearing practice `PaymentItem` with non-negative
price and quantity and a VAT rate in 5/10/20, `total_sum = price * quantity`,
`sum_vat = total_sum * vat / (100 + vat)` and
`sum_without_vat = total_sum - sum_vat`; `price=0, quantity=0` gives all
three sums 0 for every rate, and `price=1, quantity=88, vat=10` gives
`total_sum=88, sum_vat=8, sum_without_vat=80` exactly. -/
theorem claim_c7_vat_arithmetic :
    (∀ i : Practice001.PaymentItem, 0 ≤ i.price → 0 ≤ i.quantity →
      i.total_sum = i.price * i.quantity ∧
      i.sum_vat = (i.total_sum : ℚ) * (i.vat.value : ℚ) / (100 + (i.vat.value : ℚ)) ∧
      i.sum_without_vat = (i.total_sum : ℚ) - i.sum_vat) ∧
    (∀ vat : Practice001.PaymentItemVat,
      (Practice001.PaymentItem.mk 0 0 vat).total_sum = 0 ∧
      (Practice001.PaymentItem.mk 0 0 vat).sum_vat = 0 ∧
      (Practice001.PaymentItem.mk 0 0 vat).sum_without_vat = 0) ∧
    (Practice001.mkPaymentItem 1 88 .ten = .ok (Practice001.PaymentItem.mk 1 88 .ten) ∧
      (Practice001.PaymentItem.mk 1 88 .ten).total_sum = 88 ∧
      (Practice001.PaymentItem.mk 1 88 .ten).sum_vat = 8 ∧
      (Practice001.PaymentItem.mk 1 88 .ten).sum_without_vat = 80) := by
  refine ⟨?_, ?_, ?_, ?_, ?_, ?_⟩
  · intro i _ _
    refine ⟨rfl, ?_, rfl⟩
    unfold Practice001.PaymentItem.sum_vat
    push_cast
    ring
  · intro vat
    cases vat <;>
      refine ⟨rfl, ?_, ?_⟩ <;>
      simp [Practice001.PaymentItem.sum_vat, Practice001.PaymentItem.sum_without_vat,
        Practice001.PaymentItem.total_sum, Practice001.PaymentItemVat.value]
  · rfl
  · rfl
  · norm_num [Practice001.PaymentItem.sum_vat, Practice001.PaymentItem.total_sum,
      Practice001.PaymentItemVat.value]
  · norm_num [Practice001.PaymentItem.sum_without_vat, Practice001.PaymentItem.sum_vat,
      Practice001.PaymentItem.total_sum, Practice001.PaymentItemVat.value]

/-- Claim C7 witness: the general formula applied to the worked example. -/
theorem claim_c7_vat_arithmetic_witness :
    (0 : ℤ) ≤ 1 ∧ (0 : ℤ) ≤ 88 ∧
    (Practice001.PaymentItem.mk 1 88 .ten).sum_vat =
      ((Practice001.PaymentItem.mk 1 88 .ten).total_sum : ℚ) *
        ((Practice001.PaymentItemVat.ten).value : ℚ) /
        (100 + ((Practice001.PaymentItemVat.ten).value : ℚ)) :=
  ⟨by norm_num, by norm_num,
   (claim_c7_vat_arithmetic.1 (Practice001.PaymentItem.mk 1 88 .ten)
     (by norm_num) (by norm_num)).2.1⟩

/-- Claim C1 (code bug): the read query can return neither the detail
projection nor the claim not-found error — `get.py` line 37 builds
`select(Claim)` over the unmapped domain aggregate, so statement
construction raises `ArgumentError` on every call, before the row lookup
and the not-found check; and even were the select over `SaClaim`, line 42
resolves the attribute `moel_validate` (a misspelling of `model_validate`),
which `ClaimDetailDTO` does not have. -/
theorem claim_c1_get_handler_argument_error :
    (∀ store claim_id, GetQuery.handlerExecute store claim_id
        = .error (.argumentError "Claim")) ∧
    (∀ dto, GetQuery.handlerExecute GetQuery.storeEx 1 ≠ .ok dto) ∧
    GetQuery.handlerExecute GetQuery.storeEx 99 ≠ .error (.claimNotFoundError 99) ∧
    GetQuery.claimDetailDTOClassAttrs.contains "moel_validate" = false := by
  refine ⟨fun store claim_id => rfl, ?_, ?_, by decide⟩
  · intro dto h
    rw [show GetQuery.handlerExecute GetQuery.storeEx 1
        = .error (.argumentError "Claim") from rfl] at h
    exact Except.noConfusion h
  · intro h
    rw [show GetQuery.handlerExecute GetQuery.storeEx 99
        = .error (.argumentError "Claim") from rfl] at h
    injection h with h2
    exact PyError.noConfusion h2

/-- Claim C2 (code bug): the update command can neither apply the update
nor report not-found — `UnitOfWork._init_repositories` is an empty stub
that never assigns `claim_repository`, so `update.py` line 23 raises
`AttributeError` resolving it for every input, before any lookup; and even
with a repository wired, the aggregate has no `update` method (only
`update_attrs`), so the claimed apply-and-return behavior is doubly
unreachable. -/
theorem claim_c2_update_command_attribute_error :
    (∀ store payload, UpdateCmd.commandExecute store payload
        = .error (.attributeError "UnitOfWork" "claim_repository")) ∧
    (∀ store payload res, UpdateCmd.commandExecute store payload ≠ .ok res) ∧
    UpdateCmd.claimClassAttrs.contains "update" = false := by
  refine ⟨fun store payload => rfl, ?_, by decide⟩
  intro store payload res h
  rw [show UpdateCmd.commandExecute store payload
      = .error (.attributeError "UnitOfWork" "claim_repository") from rfl] at h
  exact Except.noConfusion h

/-- Claim C3 counterexample: constructing `Settings` with an empty
environment (in particular, no cache URL) succeeds with pure defaults —
configuration loading does not fail. -/
theorem claim_c3_settings_counterexample :
    Config.loadSettings []
      = .ok ⟨⟨"dev", "dev", "dev", "localhost", 5432, false⟩⟩ := rfl

/-- Claim C3 amended: `RedisSettings` alone does require the cache URL and
fails validation when `redis_url` is absent, but the application `Settings`
object does not include the redis settings (the field is commented out in
`settings.py`), so loading the configuration depends only on the database
settings and succeeds without the cache URL. -/
theorem claim_c3_settings_amended (env : Config.Env)
    (h : Config.envGet env "redis_url" = none) :
    Config.loadRedisSettings env
      = .error "1 validation error for RedisSettings: url Field required" ∧
    Config.loadSettings env = (Config.loadDatabaseSettings env).map (fun db => { db := db }) := by
  constructor
  · unfold Config.loadRedisSettings
    rw [h]
  · unfold Config.loadSettings
    cases Config.loadDatabaseSettings env <;> rfl

/-- Claim C3 amended witness: the empty environment. -/
theorem claim_c3_settings_amended_witness :
    Config.envGet [] "redis_url" = none ∧
    Config.loadRedisSettings []
      = .error "1 validation error for RedisSettings: url Field required" :=
  ⟨rfl, (claim_c3_settings_amended [] rfl).1⟩

/-- Claim C4 counterexample: with the per-context map holding an entry for
the violated constraint whose message is the empty string, the entry is
present yet the walrus guard `if description := map.get(...)` is falsy, so
the synthesized message is returned instead of the map's entry. -/
theorem claim_c4_db_error_counterexample :
    LogAttrs.lookup [("uq_x", "")] "uq_x" = some "" ∧
    (UoW.transformDbErrorToDomain [("uq_x", "")]
        ⟨"duplicate key value violates unique constraint \"uq_x\"\nDETAIL: boom.", "23505"⟩).message
      = "Значение должно быть уникальным: boom. (key=uq_x)" ∧
    "Значение должно быть уникальным: boom. (key=uq_x)" ≠ "" := by
  refine ⟨rfl, ?_, by decide⟩
  rfl


/-- Claim C4 amended: at the Unit-of-Work boundary a uniqueness violation
becomes a domain error whose message is the per-context map's entry for the
violated constraint name when that entry is present *and non-empty*, and
otherwise the synthesized uniqueness text over the captured detail and
constraint name (rendered `None` when no constraint name is captured); a
string-length truncation becomes the localized too-long message with the
limit captured from `value too long for type character varying(N)`, `???`
standing in when no (non-empty) limit is captured; any other integrity
failure carries the captured `DETAIL:` text (or the raw message when none),
stripped.  The final conjuncts evaluate the two message builders at concrete
captures, exhibiting the exact localized strings. -/
theorem claim_c4_db_error_translation (uniqueMap : List (String × String)) (exc : UoW.DbError) :
    (exc.sqlstate = "23505" →
      (∀ k d, UoW.findDuplicateKey exc.errorMsg.toList = some k →
        LogAttrs.lookup uniqueMap (String.mk k) = some d → d ≠ "" →
        (UoW.transformDbErrorToDomain uniqueMap exc).message = d) ∧
      (∀ k, UoW.findDuplicateKey exc.errorMsg.toList = some k →
        (LogAttrs.lookup uniqueMap (String.mk k) = none ∨
          LogAttrs.lookup uniqueMap (String.mk k) = some "") →
        (UoW.transformDbErrorToDomain uniqueMap exc).message =
          UoW.mkUniqueMsg (UoW.pyStrip ((UoW.findDetail exc.errorMsg.toList).getD exc.errorMsg.toList))
            (some k)) ∧
      (UoW.findDuplicateKey exc.errorMsg.toList = none →
        (UoW.transformDbErrorToDomain uniqueMap exc).message =
          UoW.mkUniqueMsg (UoW.pyStrip ((UoW.findDetail exc.errorMsg.toList).getD exc.errorMsg.toList))
            none)) ∧
    (exc.sqlstate = "22001" →
      (UoW.transformDbErrorToDomain uniqueMap exc).message =
        UoW.mkTruncationMsg (UoW.findVarcharLimit exc.errorMsg.toList)) ∧
    (exc.sqlstate ≠ "23505" → exc.sqlstate ≠ "22001" →
      (UoW.transformDbErrorToDomain uniqueMap exc).message =
        String.mk (UoW.pyStrip ((UoW.findDetail exc.errorMsg.toList).getD exc.errorMsg.toList))) ∧
    UoW.mkUniqueMsg "boom.".toList (some "uq_x".toList)
      = "Значение должно быть уникальным: boom. (key=uq_x)" ∧
    UoW.mkUniqueMsg "boom.".toList none
      = "Значение должно быть уникальным: boom. (key=None)" ∧
    UoW.mkTruncationMsg (some "30".toList)
      = "Слишком длинное значение (ограничение: 30 символов)" ∧
    UoW.mkTruncationMsg (some [])
      = "Слишком длинное значение (ограничение: ??? символов)" ∧
    UoW.mkTruncationMsg none
      = "Слишком длинное значение (ограничение: ??? символов)" := by
  refine ⟨?_, ?_, ?_, by decide, by decide, by decide, by decide, by decide⟩
  · intro hsql
    unfold UoW.transformDbErrorToDomain UoW.uniqueViolationSqlstate
    rw [hsql, if_pos rfl]
    refine ⟨?_, ?_, ?_⟩
    · intro k d hk hd hne
      simp only [hk, hd]
      rw [if_pos hne]
    · intro k hk hcase
      simp only [hk]
      cases hcase with
      | inl h0 => simp only [h0]
      | inr h0 =>
        simp only [h0]
        rw [if_neg (by simp)]
    · intro hk
      simp only [hk]
  · intro hsql
    unfold UoW.transformDbErrorToDomain UoW.uniqueViolationSqlstate UoW.truncationSqlstate
    rw [hsql, if_neg (by decide), if_pos rfl]
  · intro h1 h2
    unfold UoW.transformDbErrorToDomain UoW.uniqueViolationSqlstate UoW.truncationSqlstate
    rw [if_neg h1, if_neg h2]

/-- Claim C4 amended witness: the theorem applied to a concrete truncation
error and a concrete uniqueness error with a mapped constraint. -/
theorem claim_c4_db_error_translation_witness :
    (UoW.transformDbErrorToDomain []
        ⟨"value too long for type character varying(30)", "22001"⟩).message
      = UoW.mkTruncationMsg (some "30".toList) ∧
    (UoW.transformDbErrorToDomain [("uq_users", "Профиль уже создан")]
        ⟨"duplicate key value violates unique constraint \"uq_users\"", "23505"⟩).message
      = "Профиль уже создан" :=
  ⟨by
    have h := (claim_c4_db_error_translation []
      ⟨"value too long for type character varying(30)", "22001"⟩).2.1 rfl
    rw [h]
    decide,
   ((claim_c4_db_error_translation [("uq_users", "Профиль уже создан")]
      ⟨"duplicate key value violates unique constraint \"uq_users\"", "23505"⟩).1 rfl).1
      "uq_users".toList "Профиль уже создан" (by decide) (by decide) (by decide)⟩
